import Mathlib

/-!
A shallow embedding, in Lean 4, of the core of the montague DNS server
(the `dns::protocol` wire codec and the `dns::recursive` iterative resolver),
together with theorems checking the natural-language specification against it.

Conventions of the embedding:
* A byte buffer is a `List Nat`; every entry is intended to be `< 256`
  (the Rust type is `&[u8]`).  Multi-byte reads combine bytes exactly as the
  Rust source does.
* Rust code that can panic (out-of-bounds slice indexing, `expect`, explicit
  panics) is modelled with an explicit `panicked` result.
* Functions of the source that recurse without a structural bound
  (`deserialize_name` chasing compression pointers, the resolver loop) take an
  explicit fuel argument; the `fuelOut` result marks a computation that did not
  finish within the given fuel.  A run of the Rust code terminates with result
  `r` exactly when some fuel yields `r`, and diverges exactly when every fuel
  yields `fuelOut`.
* DNS labels are kept as raw byte lists.  The Rust source wraps label bytes in
  `String` (and panics on non-UTF-8 label bytes; that panic source is not
  modelled, the byte-level content is identical).
* The network is abstracted as a pure oracle mapping the datagram the resolver
  sends (already in its in-memory `DnsPacket` form) and the target address to
  the decoded reply, so resolver theorems quantify over nameserver behaviour.
-/

namespace Montague

/-! ## Data model (src/dns/protocol/{opcode,rcode,class,rrtype,flags}.rs,
src/dns/{question,packet,errors}.rs, src/dns/protocol/{rdata,rr}.rs) -/

/-- `dns::protocol::opcode::DnsOpcode` (src/dns/opcode.rs). -/
inductive DnsOpcode where
  | Query
  | IQuery
  | Status
  | Zone
  | Update
  | DSO
  deriving Repr, DecidableEq

/-- `num::FromPrimitive::from_u8` as derived for `DnsOpcode`. -/
def DnsOpcode.from_num : Nat → Option DnsOpcode
  | 0 => some .Query
  | 1 => some .IQuery
  | 2 => some .Status
  | 4 => some .Zone
  | 5 => some .Update
  | 6 => some .DSO
  | _ => none

/-- the numeric value of each `DnsOpcode` (the Rust `as u8` cast). -/
def DnsOpcode.to_num : DnsOpcode → Nat
  | .Query => 0
  | .IQuery => 1
  | .Status => 2
  | .Zone => 4
  | .Update => 5
  | .DSO => 6

/-- `dns::protocol::rcode::DnsRCode` (src/dns/rcode.rs). -/
inductive DnsRCode where
  | NoError
  | FormError
  | ServFail
  | NXDomain
  | NotImp
  | Refused
  | YXDomain
  | YXRRSet
  | NXRRSet
  | NotAuth
  | NotZone
  | DSOTypeNI
  deriving Repr, DecidableEq

/-- `num::FromPrimitive::from_u8` as derived for `DnsRCode`. -/
def DnsRCode.from_num : Nat → Option DnsRCode
  | 0 => some .NoError
  | 1 => some .FormError
  | 2 => some .ServFail
  | 3 => some .NXDomain
  | 4 => some .NotImp
  | 5 => some .Refused
  | 6 => some .YXDomain
  | 7 => some .YXRRSet
  | 8 => some .NXRRSet
  | 9 => some .NotAuth
  | 10 => some .NotZone
  | 11 => some .DSOTypeNI
  | _ => none

/-- the numeric value of each `DnsRCode` (the Rust `as u8` cast). -/
def DnsRCode.to_num : DnsRCode → Nat
  | .NoError => 0
  | .FormError => 1
  | .ServFail => 2
  | .NXDomain => 3
  | .NotImp => 4
  | .Refused => 5
  | .YXDomain => 6
  | .YXRRSet => 7
  | .NXRRSet => 8
  | .NotAuth => 9
  | .NotZone => 10
  | .DSOTypeNI => 11

/-- `dns::protocol::class::DnsClass` (src/dns/protocol/class.rs), including
the RFC 6891 `EdnsPayloadSize` variant used for OPT pseudo-records. -/
inductive DnsClass where
  | IN
  | CS
  | CH
  | HS
  | NONE
  | ANY
  | EdnsPayloadSize (payload : Nat)
  deriving Repr, DecidableEq

/-- `DnsClass::from_u16` (src/dns/protocol/class.rs). -/
def DnsClass.from_u16 : Nat → Option DnsClass
  | 1 => some .IN
  | 2 => some .CS
  | 3 => some .CH
  | 4 => some .HS
  | 254 => some .NONE
  | 255 => some .ANY
  | _ => none

/-- `DnsClass::to_u16` (src/dns/protocol/class.rs): on an EDNS OPT record the
class slot holds the payload size, written back verbatim. -/
def DnsClass.to_u16 : DnsClass → Nat
  | .IN => 1
  | .CS => 2
  | .CH => 3
  | .HS => 4
  | .NONE => 254
  | .ANY => 255
  | .EdnsPayloadSize payload => payload
/-- `dns::protocol::rrtype::DnsRRType` (src/dns/protocol/rrtype.rs): the full
IANA-derived RR type enumeration of the source. -/
inductive DnsRRType where
  | A
  | NS
  | MD
  | MF
  | CNAME
  | SOA
  | MB
  | MG
  | MR
  | NULL
  | WKS
  | PTR
  | HINFO
  | MINFO
  | MX
  | TXT
  | RP
  | AFSDB
  | X25
  | ISDN
  | RT
  | NSAP
  | NSAPPTR
  | SIG
  | KEY
  | PX
  | GPOS
  | AAAA
  | LOC
  | NXT
  | EID
  | NIMLOC
  | SRV
  | ATMA
  | NAPTR
  | KX
  | CERT
  | A6
  | DNAME
  | SINK
  | OPT
  | APL
  | DS
  | SSHFP
  | IPSECKEY
  | RRSIG
  | NSEC
  | DNSKEY
  | DHCID
  | NSEC3
  | NSEC3PARAM
  | TLSA
  | SMIMEA
  | HIP
  | NINFO
  | RKEY
  | TALINK
  | CDS
  | CDNSKEY
  | OPENPGPKEY
  | CSYNC
  | ZONEMD
  | SPF
  | UINFO
  | UID
  | GID
  | UNSPEC
  | NID
  | L32
  | L64
  | LP
  | EUI4
  | EUI64
  | TKEY
  | TSIG
  | IXFR
  | AXF
  | MAILB
  | MAILA
  | ANY
  | URI
  | CAA
  | AVC
  | DOA
  | AMTRELAY
  | TA
  | DLV
  deriving Repr, DecidableEq

/-- `num::FromPrimitive::from_u16` as derived for `DnsRRType`. -/
def DnsRRType.from_num : Nat → Option DnsRRType
  | 1 => some .A
  | 2 => some .NS
  | 3 => some .MD
  | 4 => some .MF
  | 5 => some .CNAME
  | 6 => some .SOA
  | 7 => some .MB
  | 8 => some .MG
  | 9 => some .MR
  | 10 => some .NULL
  | 11 => some .WKS
  | 12 => some .PTR
  | 13 => some .HINFO
  | 14 => some .MINFO
  | 15 => some .MX
  | 16 => some .TXT
  | 17 => some .RP
  | 18 => some .AFSDB
  | 19 => some .X25
  | 20 => some .ISDN
  | 21 => some .RT
  | 22 => some .NSAP
  | 23 => some .NSAPPTR
  | 24 => some .SIG
  | 25 => some .KEY
  | 26 => some .PX
  | 27 => some .GPOS
  | 28 => some .AAAA
  | 29 => some .LOC
  | 30 => some .NXT
  | 31 => some .EID
  | 32 => some .NIMLOC
  | 33 => some .SRV
  | 34 => some .ATMA
  | 35 => some .NAPTR
  | 36 => some .KX
  | 37 => some .CERT
  | 38 => some .A6
  | 39 => some .DNAME
  | 40 => some .SINK
  | 41 => some .OPT
  | 42 => some .APL
  | 43 => some .DS
  | 44 => some .SSHFP
  | 45 => some .IPSECKEY
  | 46 => some .RRSIG
  | 47 => some .NSEC
  | 48 => some .DNSKEY
  | 49 => some .DHCID
  | 50 => some .NSEC3
  | 51 => some .NSEC3PARAM
  | 52 => some .TLSA
  | 53 => some .SMIMEA
  | 55 => some .HIP
  | 56 => some .NINFO
  | 57 => some .RKEY
  | 58 => some .TALINK
  | 59 => some .CDS
  | 60 => some .CDNSKEY
  | 61 => some .OPENPGPKEY
  | 62 => some .CSYNC
  | 63 => some .ZONEMD
  | 99 => some .SPF
  | 100 => some .UINFO
  | 101 => some .UID
  | 102 => some .GID
  | 103 => some .UNSPEC
  | 104 => some .NID
  | 105 => some .L32
  | 106 => some .L64
  | 107 => some .LP
  | 108 => some .EUI4
  | 109 => some .EUI64
  | 249 => some .TKEY
  | 250 => some .TSIG
  | 251 => some .IXFR
  | 252 => some .AXF
  | 253 => some .MAILB
  | 254 => some .MAILA
  | 255 => some .ANY
  | 256 => some .URI
  | 257 => some .CAA
  | 258 => some .AVC
  | 259 => some .DOA
  | 260 => some .AMTRELAY
  | 32768 => some .TA
  | 32769 => some .DLV
  | _ => none

/-- the numeric value of each `DnsRRType` (the Rust `as u16` cast). -/
def DnsRRType.to_num : DnsRRType → Nat
  | .A => 1
  | .NS => 2
  | .MD => 3
  | .MF => 4
  | .CNAME => 5
  | .SOA => 6
  | .MB => 7
  | .MG => 8
  | .MR => 9
  | .NULL => 10
  | .WKS => 11
  | .PTR => 12
  | .HINFO => 13
  | .MINFO => 14
  | .MX => 15
  | .TXT => 16
  | .RP => 17
  | .AFSDB => 18
  | .X25 => 19
  | .ISDN => 20
  | .RT => 21
  | .NSAP => 22
  | .NSAPPTR => 23
  | .SIG => 24
  | .KEY => 25
  | .PX => 26
  | .GPOS => 27
  | .AAAA => 28
  | .LOC => 29
  | .NXT => 30
  | .EID => 31
  | .NIMLOC => 32
  | .SRV => 33
  | .ATMA => 34
  | .NAPTR => 35
  | .KX => 36
  | .CERT => 37
  | .A6 => 38
  | .DNAME => 39
  | .SINK => 40
  | .OPT => 41
  | .APL => 42
  | .DS => 43
  | .SSHFP => 44
  | .IPSECKEY => 45
  | .RRSIG => 46
  | .NSEC => 47
  | .DNSKEY => 48
  | .DHCID => 49
  | .NSEC3 => 50
  | .NSEC3PARAM => 51
  | .TLSA => 52
  | .SMIMEA => 53
  | .HIP => 55
  | .NINFO => 56
  | .RKEY => 57
  | .TALINK => 58
  | .CDS => 59
  | .CDNSKEY => 60
  | .OPENPGPKEY => 61
  | .CSYNC => 62
  | .ZONEMD => 63
  | .SPF => 99
  | .UINFO => 100
  | .UID => 101
  | .GID => 102
  | .UNSPEC => 103
  | .NID => 104
  | .L32 => 105
  | .L64 => 106
  | .LP => 107
  | .EUI4 => 108
  | .EUI64 => 109
  | .TKEY => 249
  | .TSIG => 250
  | .IXFR => 251
  | .AXF => 252
  | .MAILB => 253
  | .MAILA => 254
  | .ANY => 255
  | .URI => 256
  | .CAA => 257
  | .AVC => 258
  | .DOA => 259
  | .AMTRELAY => 260
  | .TA => 32768
  | .DLV => 32769

/-- `dns::protocol::flags::DnsFlags` (src/dns/protocol/flags.rs): the unpacked
16-bit header flag word.  The reserved Z bit is not stored. -/
structure DnsFlags where
  qr_bit : Bool
  opcode : DnsOpcode
  aa_bit : Bool
  tc_bit : Bool
  rd_bit : Bool
  ra_bit : Bool
  ad_bit : Bool
  cd_bit : Bool
  rcode : DnsRCode
  deriving Repr, DecidableEq

/-- `dns::protocol::rdata::DnsRecordData` (src/dns/protocol/rdata.rs).  An
IPv4 address is its four octets, an IPv6 address its eight big-endian 16-bit
groups, exactly the data the Rust constructors receive. -/
inductive DnsRecordData where
  | A (o1 o2 o3 o4 : Nat)
  | NS (name : List (List Nat))
  | AAAA (g1 g2 g3 g4 g5 g6 g7 g8 : Nat)
  | CNAME (name : List (List Nat))
  | Other (record_bytes : List Nat)
  deriving Repr, DecidableEq

/-- `dns::protocol::question::DnsQuestion` (struct declared in the question
module; the struct shape is visible from every use site in the snapshot). -/
structure DnsQuestion where
  qname : List (List Nat)
  qtype : DnsRRType
  qclass : DnsClass
  deriving Repr, DecidableEq

/-- `dns::protocol::rr::DnsResourceRecord` (src/dns/protocol/rr.rs).  The Rust
field `class` is renamed `classField` because `class` is a Lean keyword. -/
structure DnsResourceRecord where
  name : List (List Nat)
  rr_type : DnsRRType
  classField : DnsClass
  ttl : Nat
  rd_length : Nat
  record : DnsRecordData
  deriving Repr, DecidableEq

/-- `dns::protocol::packet::DnsPacket` (src/dns/packet.rs).  The four wire
count fields are not stored; they are the lengths of the four lists. -/
structure DnsPacket where
  id : Nat
  flags : DnsFlags
  questions : List DnsQuestion
  answers : List DnsResourceRecord
  nameservers : List DnsResourceRecord
  addl_recs : List DnsResourceRecord
  deriving Repr, DecidableEq

/-- `dns::protocol::errors::DnsFormatError` (src/dns/errors.rs): a message and
an optional partially-decoded packet.  The Rust field `partial` is renamed
`packetPart` (`partial` is a Lean keyword). -/
structure DnsFormatError where
  message : String
  packetPart : Option DnsPacket
  deriving Repr, DecidableEq

/-- `DnsFormatError::make_error` (src/dns/errors.rs): a fresh error with no
partial packet attached. -/
def DnsFormatError.make_error (message : String) : DnsFormatError :=
  { message, packetPart := none }

/-- `DnsFormatError::set_partial` (src/dns/errors.rs).  NOTE: this function is
defined by the source but never called anywhere in the repository. -/
def DnsFormatError.set_partial (e : DnsFormatError) (packet : DnsPacket) : DnsFormatError :=
  { e with packetPart := some packet }

/-- `DnsFormatError::get_error_response` (src/dns/errors.rs): if a partial
packet was captured, a FormErr reply echoing its id, with QR set,
AA/TC/RA/AD cleared, the remaining client flags copied, and all four record
sections empty; otherwise nothing (the server then drops the datagram). -/
def DnsFormatError.get_error_response (e : DnsFormatError) : Option DnsPacket :=
  match e.packetPart with
  | some packet =>
    some { id := packet.id
           flags := { packet.flags with
                      qr_bit := true
                      aa_bit := false
                      tc_bit := false
                      ra_bit := false
                      ad_bit := false
                      rcode := DnsRCode.FormError }
           questions := []
           answers := []
           nameservers := []
           addl_recs := [] }
  | none => none

/-! ## Result type of the embedded codec -/

/-- Result of running a piece of the wire codec: success, a structured DNS
format error, a Rust panic, or fuel exhaustion (the fuel-based marker for a
computation of the source that did not terminate within the given bound). -/
inductive Res (α : Type) where
  | ok : α → Res α
  | fmtErr : DnsFormatError → Res α
  | panicked : Res α
  | fuelOut : Res α
  deriving Repr, DecidableEq

namespace Res

def bind {α β : Type} : Res α → (α → Res β) → Res β
  | .ok a, f => f a
  | .fmtErr e, _ => .fmtErr e
  | .panicked, _ => .panicked
  | .fuelOut, _ => .fuelOut

instance : Monad Res where
  pure := .ok
  bind := bind

/-- lift an `Option` into `Res`, with a format error for `none` (the Rust
`match ... { Some(x) => Ok(x), None => Err(make_error(...)) }?` pattern). -/
def ofOption {α : Type} (o : Option α) (e : DnsFormatError) : Res α :=
  match o with
  | some a => .ok a
  | none => .fmtErr e

end Res

/-- The `Option<DnsPacket>` the server layer obtains at its decode-failure
boundary (src/main.rs `resolve_query`): on a format error it consults
`get_error_response`; any other outcome yields no reply packet. -/
def errorResponseOf {α : Type} : Res α → Option DnsPacket
  | .fmtErr e => e.get_error_response
  | _ => none

/-! ## `dns::protocol::bigendians` (src/dns/bigendians.rs)

The Rust functions index the slice without a length check; indexing a slice
that is too short panics. -/

/-- `bigendians::to_u16`: big-endian u16 from the first two bytes.  The Rust
source performs no length check; on a slice shorter than two bytes the
indexing `bytes[0]` / `bytes[1]` panics. -/
def to_u16 : List Nat → Res Nat
  | b0 :: b1 :: _ => .ok ((b0 <<< 8) + b1)
  | _ => .panicked

/-- `bigendians::to_u32`: big-endian u32 from the first four bytes, panicking
on a shorter slice exactly as the Rust indexing does. -/
def to_u32 : List Nat → Res Nat
  | b0 :: b1 :: b2 :: b3 :: _ => .ok ((b0 <<< 24) + (b1 <<< 16) + (b2 <<< 8) + b3)
  | _ => .panicked

/-- `bigendians::from_u16`: two big-endian bytes of a u16 value. -/
def from_u16 (num : Nat) : List Nat :=
  [(num >>> 8) &&& 255, num &&& 255]

/-- `bigendians::from_u32`: four big-endian bytes of a u32 value. -/
def from_u32 (num : Nat) : List Nat :=
  [(num >>> 24) &&& 255, (num >>> 16) &&& 255, (num >>> 8) &&& 255, num &&& 255]

/-- Rust slice indexing `&bytes[a..b]`: panics unless `a <= b <= bytes.len()`. -/
def sliceBytes (bytes : List Nat) (a b : Nat) : Res (List Nat) :=
  if a ≤ b ∧ b ≤ bytes.length then .ok ((bytes.drop a).take (b - a)) else .panicked

/-- The composite `to_u16(&bytes[pos..pos+2])`, the read pattern used
throughout the codec. -/
def readU16 (bytes : List Nat) (pos : Nat) : Res Nat :=
  Res.bind (sliceBytes bytes pos (pos + 2)) to_u16

/-- The composite `to_u32(&bytes[pos..pos+4])`. -/
def readU32 (bytes : List Nat) (pos : Nat) : Res Nat :=
  Res.bind (sliceBytes bytes pos (pos + 4)) to_u32

/-! ## `dns::protocol::names` (src/dns/protocol/names.rs) -/

/-- `names::deserialize_name(bytes, start)`.  `bytes` is the whole DNS message
because labels may be pointers to earlier positions.  The Rust source decodes
a pointer by *recursing with no bound of any kind*; the fuel argument (spent
once per label and once per pointer dereference) makes that recursion a total
Lean function, with `fuelOut` marking runs the Rust code would not finish. -/
def deserialize_name (fuel : Nat) (bytes : List Nat) (pos : Nat) :
    Res (List (List Nat) × Nat) :=
  match fuel with
  | 0 => .fuelOut
  | fuel + 1 =>
    -- `if pos >= packet_len` : ran off the end of the packet
    if pos ≥ bytes.length then
      .fmtErr (DnsFormatError.make_error
        "Reached end of packet while parsing label or label pointer jumped beyond packet")
    else
      let len_byte := bytes.getD pos 0
      -- match on the high two bits of the length octet
      if (len_byte >>> 6) &&& 3 = 3 then
        -- 0b11 : compression pointer
        if pos + 1 ≥ bytes.length then
          .fmtErr (DnsFormatError.make_error "Unexpected end of packet at label pointer start")
        else
          let pointer_start := ((len_byte &&& 63) <<< 8) + bytes.getD (pos + 1) 0
          match deserialize_name fuel bytes pointer_start with
          | .ok (remainder, _) => .ok (remainder, pos + 2)
          | .fmtErr e => .fmtErr e
          | .panicked => .panicked
          | .fuelOut => .fuelOut
      else if (len_byte >>> 6) &&& 3 = 0 then
        -- 0b00 : plain label of length `len_byte`
        if len_byte = 0 then
          .ok ([], pos + 1)
        else if pos + 1 + len_byte ≥ bytes.length then
          .fmtErr (DnsFormatError.make_error "Label length is longer than remainder of packet")
        else
          let label := (bytes.drop (pos + 1)).take len_byte
          match deserialize_name fuel bytes (pos + 1 + len_byte) with
          | .ok (rest, p) => .ok (label :: rest, p)
          | .fmtErr e => .fmtErr e
          | .panicked => .panicked
          | .fuelOut => .fuelOut
      else
        .fmtErr (DnsFormatError.make_error "Unsupported or invalid label pointer type")

/-- `names::serialize_name(name)`: each label as a length byte (the Rust
`label.len() as u8` truncation is the `% 256`) followed by its bytes, then the
terminating null label. -/
def serialize_name : List (List Nat) → List Nat
  | [] => [0]
  | l :: rest => (l.length % 256) :: (l ++ serialize_name rest)

/-! ## `dns::protocol::flags` codec (src/dns/protocol/flags.rs) -/

/-- `DnsFlags::from_bytes`: unpack the two flag bytes.  The Rust source
indexes `bytes[0]` and `bytes[1]` directly (panic on a shorter slice), fails
on a set Z bit, then on an unknown opcode, then on an unknown rcode. -/
def DnsFlags.from_bytes : List Nat → Res DnsFlags
  | b0 :: b1 :: _ =>
    let qr_bit := ((b0 >>> 7) &&& 1) == 1
    let aa_bit := ((b0 >>> 2) &&& 1) == 1
    let tc_bit := ((b0 >>> 1) &&& 1) == 1
    let rd_bit := (b0 &&& 1) == 1
    let ra_bit := ((b1 >>> 7) &&& 1) == 1
    let z_bit := ((b1 >>> 6) &&& 1) == 1
    let ad_bit := ((b1 >>> 5) &&& 1) == 1
    let cd_bit := ((b1 >>> 4) &&& 1) == 1
    if z_bit then
      .fmtErr (DnsFormatError.make_error "Z bit was set")
    else
      match DnsOpcode.from_num ((b0 >>> 3) &&& 15) with
      | none => .fmtErr (DnsFormatError.make_error "Invalid opcode value")
      | some opcode =>
        match DnsRCode.from_num (b1 &&& 15) with
        | none => .fmtErr (DnsFormatError.make_error "Invalid rcode value")
        | some rcode =>
          .ok { qr_bit, opcode, aa_bit, tc_bit, rd_bit, ra_bit, ad_bit, cd_bit, rcode }
  | _ => .panicked

/-- `DnsFlags::to_bytes`: pack the flags back into two bytes, leaving the Z
bit zero; opcode and rcode are masked to their four bits. -/
def DnsFlags.to_bytes (flags : DnsFlags) : List Nat :=
  let byte0 := (if flags.qr_bit then 128 else 0)
    + (if flags.aa_bit then 4 else 0)
    + (if flags.tc_bit then 2 else 0)
    + (if flags.rd_bit then 1 else 0)
    + ((flags.opcode.to_num &&& 15) <<< 3)
  let byte1 := (if flags.ra_bit then 128 else 0)
    + (if flags.ad_bit then 32 else 0)
    + (if flags.cd_bit then 16 else 0)
    + (flags.rcode.to_num &&& 15)
  [byte0, byte1]

/-! ## `dns::protocol::question` codec -/

/-- Modelled from the spec: the live question codec module (declared as
`mod question` by src/dns/protocol/mod.rs and called by
`DnsPacket::from_bytes`) is missing from this snapshot; only a pre-refactor
panicking variant survives under src/dns/question.rs.  Per spec section 4.6:
parse a name, then two u16s (qtype, qclass); both numerics must decode to
valid enum values, else a format error; reads past the end of the buffer fail
cleanly with a format error. -/
def DnsQuestion.from_bytes (fuel : Nat) (bytes : List Nat) (pos : Nat) :
    Res (DnsQuestion × Nat) :=
  Res.bind (deserialize_name fuel bytes pos) (fun (qnp : List (List Nat) × Nat) =>
    let qname := qnp.1
    let new_pos := qnp.2
    if new_pos + 4 > bytes.length then
      .fmtErr (DnsFormatError.make_error "End of packet parsing question")
    else
      Res.bind (readU16 bytes new_pos) (fun qtype_num =>
        Res.bind (readU16 bytes (new_pos + 2)) (fun qclass_num =>
          Res.bind (Res.ofOption (DnsRRType.from_num qtype_num)
              (DnsFormatError.make_error "Invalid qtype value")) (fun qtype =>
            Res.bind (Res.ofOption (DnsClass.from_u16 qclass_num)
                (DnsFormatError.make_error "Invalid qclass value")) (fun qclass =>
              .ok ({ qname, qtype, qclass }, new_pos + 4))))))

/-! ## `dns::protocol::rdata` codec (src/dns/protocol/rdata.rs) -/

/-- `DnsRecordData::from_bytes(packet_bytes, pos, rr_type, rd_length)`:
slice out `rd_length` bytes (Rust slicing panics when that overruns the
buffer), dispatch on the record type, and return `pos + rd_length`.  For the
name-bearing NS and CNAME variants the name is parsed against the whole
packet buffer and the position the name parse returns is DISCARDED: the
returned position is always `pos + rd_length`, and `rd_length` is never
compared with the bytes the name actually used. -/
def DnsRecordData.from_bytes (fuel : Nat) (packet_bytes : List Nat) (pos : Nat)
    (rr_type : DnsRRType) (rd_length : Nat) : Res (DnsRecordData × Nat) :=
  Res.bind (sliceBytes packet_bytes pos (pos + rd_length)) (fun record_bytes =>
    Res.bind
      (match rr_type with
       | .A =>
         match record_bytes with
         | r0 :: r1 :: r2 :: r3 :: _ => .ok (DnsRecordData.A r0 r1 r2 r3)
         | _ => .panicked
       | .AAAA =>
         Res.bind (readU16 record_bytes 0) (fun g1 =>
           Res.bind (readU16 record_bytes 2) (fun g2 =>
             Res.bind (readU16 record_bytes 4) (fun g3 =>
               Res.bind (readU16 record_bytes 6) (fun g4 =>
                 Res.bind (readU16 record_bytes 8) (fun g5 =>
                   Res.bind (readU16 record_bytes 10) (fun g6 =>
                     Res.bind (readU16 record_bytes 12) (fun g7 =>
                       Res.bind (readU16 record_bytes 14) (fun g8 =>
                         .ok (DnsRecordData.AAAA g1 g2 g3 g4 g5 g6 g7 g8)))))))))
       | .NS =>
         Res.bind (deserialize_name fuel packet_bytes pos) (fun np =>
           .ok (DnsRecordData.NS np.1))
       | .CNAME =>
         Res.bind (deserialize_name fuel packet_bytes pos) (fun np =>
           .ok (DnsRecordData.CNAME np.1))
       | _ => .ok (DnsRecordData.Other record_bytes))
      (fun record => .ok (record, pos + rd_length)))

/-- `DnsRecordData::to_bytes` (src/dns/protocol/rdata.rs): A records as four
octets, AAAA as sixteen bytes, name-bearing records as the uncompressed name
encoding, unknown records verbatim. -/
def DnsRecordData.to_bytes : DnsRecordData → List Nat
  | .A o1 o2 o3 o4 => [o1, o2, o3, o4]
  | .AAAA g1 g2 g3 g4 g5 g6 g7 g8 =>
    from_u16 g1 ++ from_u16 g2 ++ from_u16 g3 ++ from_u16 g4
      ++ from_u16 g5 ++ from_u16 g6 ++ from_u16 g7 ++ from_u16 g8
  | .NS labels => serialize_name labels
  | .CNAME labels => serialize_name labels
  | .Other record_bytes => record_bytes

/-! ## `dns::protocol::rr` codec (src/dns/protocol/rr.rs) -/

/-- `DnsResourceRecord::from_bytes`: name, the five fixed fields, then the
typed record data parsed inline (the match of src/dns/protocol/rr.rs: A,
AAAA, NS; every other type, including CNAME, is captured as `Other`).  When
the type is OPT the class number is wrapped as `EdnsPayloadSize` and is NOT
validated against the class enumeration. -/
def DnsResourceRecord.from_bytes (fuel : Nat) (packet_bytes : List Nat) (pos : Nat) :
    Res (DnsResourceRecord × Nat) :=
  Res.bind (deserialize_name fuel packet_bytes pos) (fun (np : List (List Nat) × Nat) =>
    let name := np.1
    let new_pos := np.2
    if new_pos + 10 > packet_bytes.length then
      .fmtErr (DnsFormatError.make_error "End of packet parsing resource record")
    else
      Res.bind (readU16 packet_bytes new_pos) (fun rrtype_num =>
        Res.bind (readU16 packet_bytes (new_pos + 2)) (fun class_num =>
          Res.bind (readU32 packet_bytes (new_pos + 4)) (fun ttl =>
            Res.bind (readU16 packet_bytes (new_pos + 8)) (fun rd_length =>
              Res.bind (Res.ofOption (DnsRRType.from_num rrtype_num)
                  (DnsFormatError.make_error "Invalid rrtype value")) (fun rr_type =>
                Res.bind
                  (if rr_type = DnsRRType.OPT then
                    .ok (DnsClass.EdnsPayloadSize class_num)
                  else
                    Res.ofOption (DnsClass.from_u16 class_num)
                      (DnsFormatError.make_error "Invalid class value")) (fun classField =>
                  Res.bind (sliceBytes packet_bytes (new_pos + 10) (new_pos + 10 + rd_length))
                    (fun record_bytes =>
                      Res.bind
                        (match rr_type with
                         | .A =>
                           match record_bytes with
                           | r0 :: r1 :: r2 :: r3 :: _ => .ok (DnsRecordData.A r0 r1 r2 r3)
                           | _ => .panicked
                         | .AAAA =>
                           Res.bind (readU16 record_bytes 0) (fun g1 =>
                             Res.bind (readU16 record_bytes 2) (fun g2 =>
                               Res.bind (readU16 record_bytes 4) (fun g3 =>
                                 Res.bind (readU16 record_bytes 6) (fun g4 =>
                                   Res.bind (readU16 record_bytes 8) (fun g5 =>
                                     Res.bind (readU16 record_bytes 10) (fun g6 =>
                                       Res.bind (readU16 record_bytes 12) (fun g7 =>
                                         Res.bind (readU16 record_bytes 14) (fun g8 =>
                                           .ok (DnsRecordData.AAAA g1 g2 g3 g4 g5 g6 g7 g8)))))))))
                         | .NS =>
                           Res.bind (deserialize_name fuel packet_bytes (new_pos + 10))
                             (fun np2 => .ok (DnsRecordData.NS np2.1))
                         | _ => .ok (DnsRecordData.Other record_bytes))
                        (fun record =>
                          .ok ({ name, rr_type, classField, ttl, rd_length, record },
                               new_pos + 10 + rd_length))))))))))

/-- `DnsResourceRecord::to_bytes` (src/dns/protocol/rr.rs): name, type, class
(for OPT the payload-size value written back as a u16), ttl, then the record
length RECOMPUTED from the serialized record data (never the stored
`rd_length`), then the record bytes.  A record longer than 65535 bytes
panics. -/
def DnsResourceRecord.to_bytes (rr : DnsResourceRecord) : Res (List Nat) :=
  let record := rr.record.to_bytes
  if record.length ≤ 65535 then
    .ok (serialize_name rr.name ++ from_u16 rr.rr_type.to_num
      ++ from_u16 rr.classField.to_u16 ++ from_u32 rr.ttl
      ++ from_u16 record.length ++ record)
  else
    .panicked

/-! ## `dns::protocol::packet` codec (src/dns/packet.rs) -/

/-- The `for _ in 0..qd_count` loop of `DnsPacket::from_bytes`. -/
def parseQuestions (fuel : Nat) (bytes : List Nat) :
    Nat → Nat → Res (List DnsQuestion × Nat)
  | 0, pos => .ok ([], pos)
  | count + 1, pos =>
    Res.bind (DnsQuestion.from_bytes fuel bytes pos) (fun (qp : DnsQuestion × Nat) =>
      Res.bind (parseQuestions fuel bytes count qp.2) (fun (rest : List DnsQuestion × Nat) =>
        .ok (qp.1 :: rest.1, rest.2)))

/-- The record-section loops of `DnsPacket::from_bytes`. -/
def parseRecords (fuel : Nat) (bytes : List Nat) :
    Nat → Nat → Res (List DnsResourceRecord × Nat)
  | 0, pos => .ok ([], pos)
  | count + 1, pos =>
    Res.bind (DnsResourceRecord.from_bytes fuel bytes pos) (fun rp =>
      Res.bind (parseRecords fuel bytes count rp.2) (fun rest =>
        .ok (rp.1 :: rest.1, rest.2)))

/-- `DnsPacket::from_bytes` (src/dns/packet.rs): read id, flags and the four
counts from the fixed 12-byte header (the Rust code slices `bytes[0..2]`
through `bytes[10..12]` with NO length check first, so a buffer shorter than
12 bytes panics), then parse that many questions and resource records.
Errors bubble up unchanged; in particular `set_partial` is never invoked on
them. -/
def DnsPacket.from_bytes (fuel : Nat) (bytes : List Nat) : Res DnsPacket :=
  Res.bind (Res.bind (sliceBytes bytes 0 2) to_u16) (fun id =>
    Res.bind (Res.bind (sliceBytes bytes 2 4) DnsFlags.from_bytes) (fun flags =>
      Res.bind (Res.bind (sliceBytes bytes 4 6) to_u16) (fun qd_count =>
        Res.bind (Res.bind (sliceBytes bytes 6 8) to_u16) (fun an_count =>
          Res.bind (Res.bind (sliceBytes bytes 8 10) to_u16) (fun ns_count =>
            Res.bind (Res.bind (sliceBytes bytes 10 12) to_u16) (fun ar_count =>
              Res.bind (parseQuestions fuel bytes qd_count 12) (fun qs =>
                Res.bind (parseRecords fuel bytes an_count qs.2) (fun ans =>
                  Res.bind (parseRecords fuel bytes ns_count ans.2) (fun nss =>
                    Res.bind (parseRecords fuel bytes ar_count nss.2) (fun ars =>
                      .ok { id, flags,
                            questions := qs.1, answers := ans.1,
                            nameservers := nss.1, addl_recs := ars.1 }))))))))))

/-! ## `dns::recursive` — the iterative resolver (src/dns/recursive/mod.rs,
src/dns/recursive/root.rs)

The resolver performs network exchanges; the network is abstracted as a pure
oracle `Net` from the datagram the resolver sends (in decoded `DnsPacket`
form) and the target server address to the decoded reply.  Resolver errors
are the `Box<dyn Error>` strings of the source (the Rust messages interpolate
the offending rcode and server address; the constant prefix is kept). -/

/-- `std::net::IpAddr` as used by the resolver (the source hardcodes IPv4). -/
inductive IpAddr where
  | V4 (a b c d : Nat)
  deriving Repr, DecidableEq

/-- Result of a resolver computation: success, a boxed error message, a Rust
panic, or fuel exhaustion. -/
inductive RRes (α : Type) where
  | ok : α → RRes α
  | err : String → RRes α
  | panicked : RRes α
  | fuelOut : RRes α
  deriving Repr, DecidableEq

/-- The network oracle: the reply obtained by sending a given query packet to
a given nameserver address (socket errors and reply-decode errors appear as
`err`, exactly what `query_nameserver` surfaces). -/
def Net : Type := DnsPacket → IpAddr → RRes DnsPacket

/-- `root::get_root_nameserver` (src/dns/recursive/root.rs): the hardcoded A
record for e.root-servers.net. -/
def get_root_nameserver : IpAddr := .V4 192 203 230 10

/-- The query packet `query_nameserver` (src/dns/recursive/mod.rs) builds:
the transaction id is the hardcoded constant 42 (the source comment reads
"TODO real arbitrary ID instead of just hardcoded one"), RD and every other
flag clear, opcode Query, rcode NoError, exactly the one input question, and
empty answer, authority and additional sections. -/
def build_query (question : DnsQuestion) : DnsPacket :=
  { id := 42
    flags := { qr_bit := false
               opcode := DnsOpcode.Query
               aa_bit := false
               tc_bit := false
               rd_bit := false
               ra_bit := false
               ad_bit := false
               cd_bit := false
               rcode := DnsRCode.NoError }
    questions := [question]
    answers := []
    nameservers := []
    addl_recs := [] }

/-- `query_nameserver` with the socket exchange abstracted: send the built
query to the nameserver and hand back the decoded reply. -/
def query_nameserver (net : Net) (question : DnsQuestion) (ns : IpAddr) : RRes DnsPacket :=
  net (build_query question) ns

/-- The NS-record scan of `resolve_question`: the first authority record
whose rr_type is NS. -/
def firstNS : List DnsResourceRecord → Option DnsResourceRecord
  | [] => none
  | rr :: rest => if rr.rr_type = DnsRRType.NS then some rr else firstNS rest

/-- The scan inside `find_glue_record_for_ns`: the first additional record
whose name equals the NS target and whose record data is an A record; a
name match with non-A data is skipped and the scan continues. -/
def glueScan (ns_name : List (List Nat)) : List DnsResourceRecord → Option IpAddr
  | [] => none
  | rr :: rest =>
    if rr.name = ns_name then
      match rr.record with
      | DnsRecordData.A a b c d => some (IpAddr.V4 a b c d)
      | _ => glueScan ns_name rest
    else glueScan ns_name rest

/-- `find_glue_record_for_ns` (src/dns/recursive/mod.rs): panics when the
chosen record's data is not NS data, otherwise scans the additional records
for a glue A record of the NS target. -/
def find_glue_record_for_ns (ns : DnsResourceRecord) (records : List DnsResourceRecord) :
    RRes (Option IpAddr) :=
  match ns.record with
  | DnsRecordData.NS ns_name => .ok (glueScan ns_name records)
  | _ => .panicked

/-- The answer scan of `get_nameserver_address`: the first answer with
rr_type A carrying A record data (an A-typed answer with mismatched data is
skipped and the scan continues). -/
def firstARecord : List DnsResourceRecord → Option IpAddr
  | [] => none
  | rr :: rest =>
    if rr.rr_type = DnsRRType.A then
      match rr.record with
      | DnsRecordData.A a b c d => some (IpAddr.V4 a b c d)
      | _ => firstARecord rest
    else firstARecord rest

mutual

/-- The body of the `loop` in `resolve_question` (src/dns/recursive/mod.rs),
one fuel unit per iteration: query the current nameserver, classify the
reply (non-NoError rcode; answers present; otherwise referral), and either
return, chase answers, or loop with the next nameserver address (glue if
present, otherwise a recursive nameserver-address resolution — the source
comment reads "XXX this is definitely not a production server without loop
detection"). -/
def resolveLoop : Nat → Net → DnsQuestion → IpAddr → RRes DnsPacket
  | 0, _, _, _ => .fuelOut
  | fuel + 1, net, question, ns =>
    match query_nameserver net question ns with
    | .err m => .err m
    | .panicked => .panicked
    | .fuelOut => .fuelOut
    | .ok response =>
      if response.flags.rcode ≠ DnsRCode.NoError then
        if response.flags.rcode = DnsRCode.NXDomain then
          .ok response
        else
          .err "Nonzero response code"
      else if 0 < response.answers.length then
        handle_answers fuel net response
      else
        match firstNS response.nameservers with
        | none => .err "No error, answer, or nameservers from response"
        | some ns_answer =>
          match find_glue_record_for_ns ns_answer response.addl_recs with
          | .err m => .err m
          | .panicked => .panicked
          | .fuelOut => .fuelOut
          | .ok (some ip) => resolveLoop fuel net question ip
          | .ok none =>
            match get_nameserver_address fuel net ns_answer with
            | .err m => .err m
            | .panicked => .panicked
            | .fuelOut => .fuelOut
            | .ok ip => resolveLoop fuel net question ip

/-- `handle_answers` (src/dns/recursive/mod.rs): when the answer section is
exactly one CNAME record, resolve the CNAME target with the qclass and qtype
of the reply's first question (Rust `response.questions[0]`, a panic when the
reply carries no question), extend the answer, authority and additional
sections with the new result, and leave the questions untouched. -/
def handle_answers : Nat → Net → DnsPacket → RRes DnsPacket
  | 0, _, _ => .fuelOut
  | fuel + 1, net, response =>
    match response.answers with
    | [ans0] =>
      match ans0.record with
      | DnsRecordData.CNAME labels =>
        match response.questions with
        | [] => .panicked
        | q0 :: _ =>
          match resolveLoop fuel net
              { qname := labels, qtype := q0.qtype, qclass := q0.qclass }
              get_root_nameserver with
          | .err m => .err m
          | .panicked => .panicked
          | .fuelOut => .fuelOut
          | .ok reply =>
            .ok { response with
                  answers := response.answers ++ reply.answers
                  nameservers := response.nameservers ++ reply.nameservers
                  addl_recs := response.addl_recs ++ reply.addl_recs }
      | _ => .ok response
    | _ => .ok response

/-- `get_nameserver_address` (src/dns/recursive/mod.rs): resolve an A record
for the NS target by a fresh full resolution from the root (the source
comment reads "TODO(dylan): We should detect an infinite loop being caused
by a missing glue record"), then take the first A answer. -/
def get_nameserver_address : Nat → Net → DnsResourceRecord → RRes IpAddr
  | 0, _, _ => .fuelOut
  | fuel + 1, net, ns =>
    match ns.record with
    | DnsRecordData.NS ns_name =>
      match resolveLoop fuel net
          { qname := ns_name, qtype := DnsRRType.A, qclass := DnsClass.IN }
          get_root_nameserver with
      | .err m => .err m
      | .panicked => .panicked
      | .fuelOut => .fuelOut
      | .ok result =>
        match firstARecord result.answers with
        | some ip => .ok ip
        | none => .err "Got result without A records when doing nameserver lookup"
    | _ => .panicked

end

/-- `resolve_question` (src/dns/recursive/mod.rs): iterative resolution
starting from the hardcoded root nameserver. -/
def resolve_question (fuel : Nat) (net : Net) (question : DnsQuestion) : RRes DnsPacket :=
  resolveLoop fuel net question get_root_nameserver

/-! ## Concrete fixtures used by the theorems -/

/-- the spec's FormErr-synthesis scenario input (spec section 8, scenario 6):
bytes `00 2A 11 20 00 01 00 00 00 00 00 00 00` — a well-formed 12-byte
header (id 0x2A, one question announced) followed by a malformed body. -/
def formErrScenarioBytes : List Nat :=
  [0, 42, 17, 32, 0, 1, 0, 0, 0, 0, 0, 0, 0]

/-- an 11-byte datagram: the same header truncated one byte short of the
fixed 12-byte header size. -/
def shortHeaderBytes : List Nat :=
  [0, 42, 17, 32, 0, 1, 0, 0, 0, 0, 0]

/-- a minimal OPT pseudo-record: root name, type 41 (OPT), class field 4096
(the spec's EDNS payload-size example), ttl 0, rdlength 0. -/
def optRecordBytes : List Nat :=
  [0, 0, 41, 16, 0, 0, 0, 0, 0, 0, 0]

/-- the name `example.com` as labels. -/
def exampleComName : List (List Nat) :=
  [[101, 120, 97, 109, 112, 108, 101], [99, 111, 109]]

/-- the name `ns.example.com` as labels: an NS target inside the zone it
serves (in-bailiwick). -/
def nsExampleComName : List (List Nat) :=
  [[110, 115], [101, 120, 97, 109, 112, 108, 101], [99, 111, 109]]

/-- reply flags of a well-behaved referral: a NoError response. -/
def referralFlags : DnsFlags :=
  { qr_bit := true
    opcode := DnsOpcode.Query
    aa_bit := false
    tc_bit := false
    rd_bit := false
    ra_bit := false
    ad_bit := false
    cd_bit := false
    rcode := DnsRCode.NoError }

/-- the glue-less in-bailiwick referral record: `example.com NS
ns.example.com`. -/
def inBailiwickReferralRecord : DnsResourceRecord :=
  { name := exampleComName
    rr_type := DnsRRType.NS
    classField := DnsClass.IN
    ttl := 3600
    rd_length := 16
    record := DnsRecordData.NS nsExampleComName }

/-- a nameserver environment that answers EVERY query with the glue-less
in-bailiwick referral `example.com NS ns.example.com` (no answers, no
additional records).  Resolving the referral's NS target requires asking the
same environment again, which returns the same referral. -/
def inBailiwickNet : Net := fun sent _ =>
  .ok { id := sent.id
        flags := referralFlags
        questions := sent.questions
        answers := []
        nameservers := [inBailiwickReferralRecord]
        addl_recs := [] }

/-- the question `a.test. A IN` used by concrete resolver scenarios. -/
def testQuestion : DnsQuestion :=
  { qname := [[97], [116, 101, 115, 116]]
    qtype := DnsRRType.A
    qclass := DnsClass.IN }

/-- an authoritative NXDomain reply to `testQuestion`. -/
def nxDomainReply : DnsPacket :=
  { id := 42
    flags := { referralFlags with aa_bit := true, rcode := DnsRCode.NXDomain }
    questions := [testQuestion]
    answers := []
    nameservers := []
    addl_recs := [] }

/-- a nameserver environment that always returns the NXDomain reply. -/
def nxDomainNet : Net := fun _ _ => .ok nxDomainReply

/-- a ServFail reply to `testQuestion`. -/
def servFailReply : DnsPacket :=
  { nxDomainReply with flags := { referralFlags with rcode := DnsRCode.ServFail } }

/-- a nameserver environment that always returns the ServFail reply. -/
def servFailNet : Net := fun _ _ => .ok servFailReply

/-- the CNAME target `t.test` as labels. -/
def cnameTargetName : List (List Nat) :=
  [[116], [116, 101, 115, 116]]

/-- the answer record `a.test CNAME t.test`. -/
def cnameAnswerRecord : DnsResourceRecord :=
  { name := [[97], [116, 101, 115, 116]]
    rr_type := DnsRRType.CNAME
    classField := DnsClass.IN
    ttl := 60
    rd_length := 8
    record := DnsRecordData.CNAME cnameTargetName }

/-- a reply to `testQuestion` whose single answer is the CNAME record. -/
def cnameResponse : DnsPacket :=
  { id := 42
    flags := referralFlags
    questions := [testQuestion]
    answers := [cnameAnswerRecord]
    nameservers := []
    addl_recs := [] }

/-- the answer record `t.test A 10.0.0.1`. -/
def targetARecord : DnsResourceRecord :=
  { name := cnameTargetName
    rr_type := DnsRRType.A
    classField := DnsClass.IN
    ttl := 60
    rd_length := 4
    record := DnsRecordData.A 10 0 0 1 }

/-- the reply carrying the A record for the CNAME target. -/
def targetAReply : DnsPacket :=
  { id := 42
    flags := referralFlags
    questions := [{ qname := cnameTargetName, qtype := DnsRRType.A, qclass := DnsClass.IN }]
    answers := [targetARecord]
    nameservers := []
    addl_recs := [] }

/-- a nameserver environment answering the CNAME-target question with the A
record and anything else with an error. -/
def cnameChaseNet : Net := fun sent _ =>
  if sent.questions
      = [{ qname := cnameTargetName, qtype := DnsRRType.A, qclass := DnsClass.IN }] then
    .ok targetAReply
  else
    .err "unexpected question"

/-! ## Theorems -/

theorem getD_append_self (pre : List Nat) (x : Nat) (tail : List Nat) :
    (pre ++ x :: tail).getD pre.length 0 = x := by
  induction pre with
  | nil => rfl
  | cons a t ih => simpa using ih

theorem drop_append_self (pre tail : List Nat) : (pre ++ tail).drop pre.length = tail := by
  induction pre with
  | nil => rfl
  | cons a t ih => simp [ih]

theorem take_append_self (l tail : List Nat) : (l ++ tail).take l.length = l := by
  induction l with
  | nil => rfl
  | cons a t ih => simp [ih]

theorem serialize_name_length_pos (name : List (List Nat)) :
    1 ≤ (serialize_name name).length := by
  cases name <;> simp [serialize_name]

/-- Deserializing a serialized name embedded in any message: with the
serialization of `name` sitting at offset `pre.length` of the message, the
decoder returns exactly `name` and stops at the first byte after it. -/
theorem deserialize_serialize_aux (name : List (List Nat)) :
    ∀ (fuel : Nat) (pre post : List Nat),
    (∀ l ∈ name, 1 ≤ l.length ∧ l.length ≤ 63) →
    name.length + 1 ≤ fuel →
    deserialize_name fuel (pre ++ serialize_name name ++ post) pre.length
      = .ok (name, pre.length + (serialize_name name).length) := by
  induction name with
  | nil =>
    intro fuel pre post _ hfuel
    match fuel, hfuel with
    | fuel + 1, _ =>
      have hget : (pre ++ serialize_name [] ++ post).getD pre.length 0 = 0 := by
        simpa [serialize_name] using getD_append_self pre 0 post
      have hlen : ¬ (pre.length ≥ (pre ++ serialize_name [] ++ post).length) := by
        simp [serialize_name]
      simp only [deserialize_name, hget, hlen, if_false, if_neg, ite_false]
      norm_num [serialize_name]
  | cons l rest ih =>
    intro fuel pre post hlab hfuel
    match fuel, hfuel with
    | fuel + 1, hfuel =>
      have hl1 : 1 ≤ l.length := (hlab l (by simp)).1
      have hl63 : l.length ≤ 63 := (hlab l (by simp)).2
      have hmod : l.length % 256 = l.length := Nat.mod_eq_of_lt (by omega)
      have hser : serialize_name (l :: rest) = l.length :: (l ++ serialize_name rest) := by
        rw [serialize_name, hmod]
      have hsl : 1 ≤ (serialize_name rest).length := serialize_name_length_pos rest
      -- the buffer, rewritten so the label head is explicit
      have hbuf : pre ++ serialize_name (l :: rest) ++ post
          = pre ++ l.length :: (l ++ (serialize_name rest ++ post)) := by
        simp [hser]
      have hlen : (pre ++ serialize_name (l :: rest) ++ post).length
          = pre.length + 1 + l.length + (serialize_name rest).length + post.length := by
        rw [hbuf]; simp; omega
      have hget : (pre ++ serialize_name (l :: rest) ++ post).getD pre.length 0 = l.length := by
        rw [hbuf]; exact getD_append_self pre l.length _
      have hsh : (l.length >>> 6) &&& 3 = 0 := by
        have h0 : l.length >>> 6 = 0 := by
          rw [Nat.shiftRight_eq_div_pow]
          omega
        simp [h0]
      have hnotptr : ¬ ((l.length >>> 6) &&& 3 = 3) := by rw [hsh]; omega
      have hne : ¬ (l.length = 0) := by omega
      have hnot_end : ¬ (pre.length ≥ (pre ++ serialize_name (l :: rest) ++ post).length) := by
        rw [hlen]; omega
      have hnot_long :
          ¬ (pre.length + 1 + l.length ≥ (pre ++ serialize_name (l :: rest) ++ post).length) := by
        rw [hlen]; omega
      -- the label bytes read back are exactly l
      have hlabel :
          (((pre ++ serialize_name (l :: rest) ++ post).drop (pre.length + 1)).take l.length)
            = l := by
        rw [hbuf]
        have h2 : pre ++ l.length :: (l ++ (serialize_name rest ++ post))
            = (pre ++ [l.length]) ++ (l ++ (serialize_name rest ++ post)) := by simp
        rw [h2]
        have hlen2 : pre.length + 1 = (pre ++ [l.length]).length := by simp
        rw [hlen2, drop_append_self, take_append_self]
      -- the recursive call deserializes `rest` behind the prefix pre ++ l.length :: l
      have hrec : deserialize_name fuel (pre ++ serialize_name (l :: rest) ++ post)
            (pre.length + 1 + l.length)
          = .ok (rest, (pre.length + 1 + l.length) + (serialize_name rest).length) := by
        have hpre2 : pre ++ serialize_name (l :: rest) ++ post
            = (pre ++ l.length :: l) ++ serialize_name rest ++ post := by
          rw [hbuf]; simp
        have hlen3 : pre.length + 1 + l.length = (pre ++ l.length :: l).length := by
          simp; omega
        rw [hpre2, hlen3]
        exact ih fuel (pre ++ l.length :: l) post (fun x hx => hlab x (by simp [hx]))
          (by simpa using Nat.lt_of_succ_le hfuel)
      simp only [deserialize_name, hget, hnotptr, hsh, hne, hnot_end, hnot_long, if_neg, if_pos,
        ite_false, ite_true, not_false_eq_true, ge_iff_le, hlabel, hrec]
      simp [hser]
      omega

/-- C8: for every label sequence whose labels have length 1..=63 bytes, with
the whole serialized name within the 255-byte DNS name limit, deserializing
`serialize_name name` from offset 0 (with sufficient fuel: the Rust recursion
terminates on pointer-free input after one step per label) succeeds and
returns exactly the labels `name`, with the next position equal to the length
of the serialized byte vector. -/
theorem deserialize_serialize_name_roundtrip (name : List (List Nat)) (fuel : Nat)
    (hlab : ∀ l ∈ name, 1 ≤ l.length ∧ l.length ≤ 63)
    (hlimit : (serialize_name name).length ≤ 255)
    (hfuel : name.length + 1 ≤ fuel) :
    deserialize_name fuel (serialize_name name) 0
      = .ok (name, (serialize_name name).length) := by
  have h := deserialize_serialize_aux name fuel [] [] hlab hfuel
  simpa using h

/-- C8 witness: the round-trip at the concrete name with labels `a` and
`bc`. -/
theorem deserialize_serialize_name_roundtrip_witness :
    deserialize_name 3 (serialize_name [[97], [98, 99]]) 0
      = .ok ([[97], [98, 99]], (serialize_name [[97], [98, 99]]).length) :=
  deserialize_serialize_name_roundtrip [[97], [98, 99]] 3 (by decide) (by decide) (by decide)

/-- C2: the spec requires the number of pointer dereferences per name to be
bounded so that a pointer loop fails instead of hanging; the source has no
such bound.  On the two-byte message `C0 00` — a compression pointer whose
14-bit target is offset 0, the pointer itself — `deserialize_name` at offset
0 dereferences the pointer back to offset 0 forever: every fuel is exhausted,
i.e. the Rust recursion never returns (it overflows the stack instead of
failing with a format error). -/
theorem deserialize_name_self_pointer_diverges :
    ∀ fuel : Nat, deserialize_name fuel [192, 0] 0 = .fuelOut := by
  intro fuel
  induction fuel with
  | zero => rfl
  | succ n ih =>
    simp [deserialize_name, ih, show ((192 : Nat) &&& 63) <<< 8 = 0 from rfl]

/-- C3: `DnsPacket::from_bytes` does NOT fail cleanly on buffers shorter than
12 bytes: the header reads slice the buffer unchecked, and `to_u16` / `to_u32`
have no length guard of their own, so an 11-byte datagram panics (for every
fuel — the failure happens before any name parse) instead of producing a
format error. -/
theorem from_bytes_short_input_panics :
    (∀ fuel : Nat, DnsPacket.from_bytes fuel shortHeaderBytes = .panicked) ∧
    to_u16 [0] = .panicked ∧ to_u32 [0, 0, 0] = .panicked :=
  ⟨fun _ => rfl, rfl, rfl⟩

/-- C7: the query packet `query_nameserver` hands to the network has exactly
one question equal to the input, recursion-desired false and every other
flag clear, rcode NoError, opcode Query, and empty answer, authority and
additional sections — but its transaction id is NOT fresh: it is the
hardcoded constant 42 on every call. -/
theorem query_packet_fields (net : Net) (question : DnsQuestion) (ns : IpAddr) :
    query_nameserver net question ns = net (build_query question) ns ∧
    (build_query question).id = 42 ∧
    (build_query question).questions = [question] ∧
    (build_query question).flags.rd_bit = false ∧
    (build_query question).flags.qr_bit = false ∧
    (build_query question).flags.aa_bit = false ∧
    (build_query question).flags.tc_bit = false ∧
    (build_query question).flags.ra_bit = false ∧
    (build_query question).flags.ad_bit = false ∧
    (build_query question).flags.cd_bit = false ∧
    (build_query question).flags.opcode = DnsOpcode.Query ∧
    (build_query question).flags.rcode = DnsRCode.NoError ∧
    (build_query question).answers = [] ∧
    (build_query question).nameservers = [] ∧
    (build_query question).addl_recs = [] :=
  ⟨rfl, rfl, rfl, rfl, rfl, rfl, rfl, rfl, rfl, rfl, rfl, rfl, rfl, rfl, rfl⟩

/-- C10: for NS and CNAME record data, `DnsRecordData::from_bytes` parses the
embedded name against the whole packet buffer and returns position
`pos + rd_length` no matter where the name actually ended (`name_end` is
unconstrained): a name extending past the rdlength boundary, or one shorter
than it, parses without error — rdlength is never compared with the name's
encoded length. -/
theorem rdata_ignores_rdlength_for_names
    (fuel : Nat) (bytes : List Nat) (pos rd_length : Nat)
    (name : List (List Nat)) (name_end : Nat)
    (hbound : pos + rd_length ≤ bytes.length)
    (hname : deserialize_name fuel bytes pos = .ok (name, name_end)) :
    DnsRecordData.from_bytes fuel bytes pos DnsRRType.NS rd_length
      = .ok (DnsRecordData.NS name, pos + rd_length) ∧
    DnsRecordData.from_bytes fuel bytes pos DnsRRType.CNAME rd_length
      = .ok (DnsRecordData.CNAME name, pos + rd_length) := by
  have hslice : sliceBytes bytes pos (pos + rd_length)
      = .ok ((bytes.drop pos).take rd_length) := by
    simp [sliceBytes, hbound]
  constructor <;>
    simp [DnsRecordData.from_bytes, hslice, hname, Res.bind]

/-- C10 witness: in the five-byte buffer `01 61 00 09 09` the name `a.` at
offset 0 occupies three bytes; record data with rdlength 5 (name shorter than
the rdata) and with rdlength 1 (name running past the rdata boundary) are
both accepted, and the returned position is `pos + rdlength` in both cases. -/
theorem rdata_ignores_rdlength_for_names_witness :
    DnsRecordData.from_bytes 2 [1, 97, 0, 9, 9] 0 DnsRRType.NS 5
      = .ok (DnsRecordData.NS [[97]], 5) ∧
    DnsRecordData.from_bytes 2 [1, 97, 0, 9, 9] 0 DnsRRType.CNAME 1
      = .ok (DnsRecordData.CNAME [[97]], 1) :=
  ⟨(rdata_ignores_rdlength_for_names 2 [1, 97, 0, 9, 9] 0 5 [[97]] 3
      (by decide) (by decide)).1,
   (rdata_ignores_rdlength_for_names 2 [1, 97, 0, 9, 9] 0 1 [[97]] 3
      (by decide) (by decide)).2⟩

/-- C9: when the resource-record type field reads 41 (OPT), the 16-bit class
field is wrapped as `EdnsPayloadSize class_num` with no validation against
the class enumeration (the hypotheses name the raw field reads; nothing
requires `class_num` to be a valid class number), and `to_bytes` writes the
identical 16-bit value back into the class slot of the encoding. -/
theorem opt_class_reinterpreted
    (fuel : Nat) (bytes : List Nat) (pos : Nat)
    (name : List (List Nat)) (new_pos class_num ttl rd_length : Nat)
    (record_bytes : List Nat)
    (hname : deserialize_name fuel bytes pos = .ok (name, new_pos))
    (hroom : ¬ (new_pos + 10 > bytes.length))
    (htype : readU16 bytes new_pos = .ok 41)
    (hclass : readU16 bytes (new_pos + 2) = .ok class_num)
    (httl : readU32 bytes (new_pos + 4) = .ok ttl)
    (hrdl : readU16 bytes (new_pos + 8) = .ok rd_length)
    (hslice : sliceBytes bytes (new_pos + 10) (new_pos + 10 + rd_length) = .ok record_bytes)
    (hsize : record_bytes.length ≤ 65535) :
    DnsResourceRecord.from_bytes fuel bytes pos
      = .ok ({ name := name
               rr_type := DnsRRType.OPT
               classField := DnsClass.EdnsPayloadSize class_num
               ttl := ttl
               rd_length := rd_length
               record := DnsRecordData.Other record_bytes }, new_pos + 10 + rd_length) ∧
    DnsClass.to_u16 (DnsClass.EdnsPayloadSize class_num) = class_num ∧
    DnsResourceRecord.to_bytes
        { name := name
          rr_type := DnsRRType.OPT
          classField := DnsClass.EdnsPayloadSize class_num
          ttl := ttl
          rd_length := rd_length
          record := DnsRecordData.Other record_bytes }
      = .ok (serialize_name name ++ from_u16 41 ++ from_u16 class_num
          ++ from_u32 ttl ++ from_u16 record_bytes.length ++ record_bytes) := by
  refine ⟨?_, rfl, ?_⟩
  · rw [DnsResourceRecord.from_bytes, hname]
    simp only [Res.bind]
    rw [if_neg hroom]
    rw [htype]
    simp only [Res.bind]
    rw [hclass]
    simp only [Res.bind]
    rw [httl]
    simp only [Res.bind]
    rw [hrdl]
    simp only [Res.bind]
    rw [show DnsRRType.from_num 41 = some DnsRRType.OPT from rfl]
    simp only [Res.ofOption, Res.bind]
    simp [hslice, Res.bind]
  · rw [DnsResourceRecord.to_bytes]
    simp only [DnsRecordData.to_bytes]
    rw [if_pos hsize]
    simp only [DnsRRType.to_num, DnsClass.to_u16]

/-- C9 witness: the eleven-byte OPT record with class field 4096 decodes to
`EdnsPayloadSize 4096` (4096 is not a valid class number, so enum validation
would have rejected it) and encodes back to the identical bytes. -/
theorem opt_class_reinterpreted_witness :
    DnsResourceRecord.from_bytes 2 optRecordBytes 0
      = .ok ({ name := []
               rr_type := DnsRRType.OPT
               classField := DnsClass.EdnsPayloadSize 4096
               ttl := 0
               rd_length := 0
               record := DnsRecordData.Other [] }, 11) ∧
    DnsClass.from_u16 4096 = none ∧
    DnsResourceRecord.to_bytes
        { name := []
          rr_type := DnsRRType.OPT
          classField := DnsClass.EdnsPayloadSize 4096
          ttl := 0
          rd_length := 0
          record := DnsRecordData.Other [] }
      = .ok optRecordBytes :=
  ⟨(opt_class_reinterpreted 2 optRecordBytes 0 [] 1 4096 0 0 []
      (by decide) (by decide) (by decide) (by decide) (by decide) (by decide)
      (by decide) (by decide)).1,
   by decide,
   by
     have h := (opt_class_reinterpreted 2 optRecordBytes 0 [] 1 4096 0 0 []
       (by decide) (by decide) (by decide) (by decide) (by decide) (by decide)
       (by decide) (by decide)).2.2
     simpa [serialize_name, from_u16, from_u32, optRecordBytes] using h⟩

/-- C1: the claim says a header-decoding-but-body-malformed buffer yields an
error carrying a partial packet from which `get_error_response` builds a
FormErr reply.  The source never calls `set_partial`, so on the spec's own
FormErr scenario input (13 bytes, valid header, malformed body) the error
returned by `DnsPacket::from_bytes` carries NO partial packet,
`get_error_response` returns nothing, and the server therefore drops the
datagram instead of replying. -/
theorem from_bytes_error_carries_no_packet :
    DnsPacket.from_bytes 16 formErrScenarioBytes
      = .fmtErr (DnsFormatError.make_error "End of packet parsing question") ∧
    (DnsFormatError.make_error "End of packet parsing question").packetPart = none ∧
    errorResponseOf (DnsPacket.from_bytes 16 formErrScenarioBytes) = none :=
  ⟨rfl, rfl, rfl⟩

/-- C5: classification of the upstream reply by `resolve_question`: an
NXDomain reply is returned unchanged, and any rcode other than NoError and
NXDomain fails with the "Nonzero response code" error instead of returning a
reply. -/
theorem resolve_question_rcode_handling
    (fuel : Nat) (net : Net) (question : DnsQuestion) (reply : DnsPacket)
    (hnet : net (build_query question) get_root_nameserver = .ok reply) :
    (reply.flags.rcode = DnsRCode.NXDomain →
      resolve_question (fuel + 1) net question = .ok reply) ∧
    (reply.flags.rcode ≠ DnsRCode.NoError → reply.flags.rcode ≠ DnsRCode.NXDomain →
      resolve_question (fuel + 1) net question = .err "Nonzero response code") := by
  constructor
  · intro h
    rw [resolve_question, resolveLoop]
    rw [query_nameserver, hnet]
    dsimp only
    rw [if_pos (by rw [h]; decide)]
    rw [if_pos h]
  · intro h1 h2
    rw [resolve_question, resolveLoop]
    rw [query_nameserver, hnet]
    dsimp only
    rw [if_pos h1, if_neg h2]

/-- C5 witness: against a nameserver environment always answering NXDomain
the resolver returns the reply unchanged; against one always answering
ServFail it fails with the nonzero-response-code error. -/
theorem resolve_question_rcode_handling_witness :
    resolve_question 1 nxDomainNet testQuestion = .ok nxDomainReply ∧
    resolve_question 1 servFailNet testQuestion = .err "Nonzero response code" :=
  ⟨(resolve_question_rcode_handling 0 nxDomainNet testQuestion nxDomainReply rfl).1
      (by decide),
   (resolve_question_rcode_handling 0 servFailNet testQuestion servFailReply rfl).2
      (by decide) (by decide)⟩

/-- C6: when a reply's answer section is exactly one CNAME record and the
reply carries the original question, `handle_answers` resolves the CNAME
target with the original qtype and qclass preserved, appends the result's
answers, authority records and additional records to the reply, and leaves
the question untouched; the merged reply keeps the CNAME record in front of
the target's records. -/
theorem handle_answers_cname_merge
    (fuel : Nat) (net : Net) (response reply : DnsPacket)
    (ans0 : DnsResourceRecord) (target : List (List Nat))
    (q0 : DnsQuestion) (qrest : List DnsQuestion)
    (hans : response.answers = [ans0])
    (hrec : ans0.record = DnsRecordData.CNAME target)
    (hq : response.questions = q0 :: qrest)
    (hresolve : resolveLoop fuel net
        { qname := target, qtype := q0.qtype, qclass := q0.qclass }
        get_root_nameserver = .ok reply) :
    handle_answers (fuel + 1) net response
      = .ok { response with
              answers := response.answers ++ reply.answers
              nameservers := response.nameservers ++ reply.nameservers
              addl_recs := response.addl_recs ++ reply.addl_recs } := by
  rw [handle_answers, hans]
  dsimp only
  rw [hrec]
  dsimp only
  rw [hq]
  dsimp only
  rw [hresolve]

/-- C6 witness: the `a.test CNAME t.test` reply merged with the A record the
chase obtains for `t.test`: the final reply holds both the CNAME and the A
record, with the original question preserved. -/
theorem handle_answers_cname_merge_witness :
    handle_answers 3 cnameChaseNet cnameResponse
      = .ok { cnameResponse with
              answers := cnameResponse.answers ++ targetAReply.answers
              nameservers := cnameResponse.nameservers ++ targetAReply.nameservers
              addl_recs := cnameResponse.addl_recs ++ targetAReply.addl_recs } :=
  handle_answers_cname_merge 2 cnameChaseNet cnameResponse targetAReply
    cnameAnswerRecord cnameTargetName testQuestion []
    (by decide) (by decide) (by decide) (by decide)

/-- In the glue-less in-bailiwick referral environment, every fuel is
exhausted: the loop keeps re-resolving the nameserver address, which asks
the same environment the same kind of question again. -/
theorem inBailiwick_aux : ∀ n : Nat,
    (∀ (q : DnsQuestion) (ns : IpAddr), resolveLoop n inBailiwickNet q ns = .fuelOut) ∧
    get_nameserver_address n inBailiwickNet inBailiwickReferralRecord = .fuelOut := by
  intro n
  induction n with
  | zero => exact ⟨fun q ns => rfl, rfl⟩
  | succ m ih =>
    constructor
    · intro q ns
      rw [resolveLoop, query_nameserver]
      rw [show (inBailiwickNet (build_query q) ns : RRes DnsPacket)
          = .ok { id := (build_query q).id
                  flags := referralFlags
                  questions := (build_query q).questions
                  answers := []
                  nameservers := [inBailiwickReferralRecord]
                  addl_recs := [] } from rfl]
      dsimp only
      rw [if_neg (by simp [referralFlags])]
      rw [if_neg (by simp)]
      rw [show firstNS [inBailiwickReferralRecord] = some inBailiwickReferralRecord from rfl]
      dsimp only
      rw [show find_glue_record_for_ns inBailiwickReferralRecord [] = RRes.ok none from rfl]
      dsimp only
      rw [ih.2]
    · rw [get_nameserver_address]
      rw [show inBailiwickReferralRecord.record = DnsRecordData.NS nsExampleComName from rfl]
      dsimp only
      rw [ih.1]

/-- C4: the claim says every resolution terminates because CNAME chasing is
depth-limited and glue-less in-bailiwick referrals are detected or bounded.
The source has neither mechanism: in a nameserver environment that answers
every query with the glue-less in-bailiwick referral `example.com NS
ns.example.com`, `resolve_question` repeats the same nameserver-address
lookup forever — every fuel is exhausted, for every starting question, so
the Rust loop never returns. -/
theorem resolve_question_inbailiwick_diverges :
    ∀ (fuel : Nat) (question : DnsQuestion),
      resolve_question fuel inBailiwickNet question = .fuelOut := by
  intro fuel question
  exact (inBailiwick_aux fuel).1 question get_root_nameserver

end Montague
